import Mathlib

/-!
Shallow embedding of the billing-computation core of the Open Energies PDF
service (`server.py`), together with a spec-modelled Monthly Allocator.
Python floats are modelled as exact rationals; Python's built-in `round`
(banker's rounding, round half to even) is modelled by `rhe` below.
-/

namespace OpenEnergies

/-- The three registered tariff codes (the pydantic `Literal` type
`TarifaLiteral = Literal["2.0TD", "3.0TD", "6.1TD"]`). -/
inductive Tarifa
  | t20TD
  | t30TD
  | t61TD
deriving DecidableEq, Repr

/-- One entry of `TARIFF_PERIODS`: the required power and energy periods. -/
structure TariffCfg where
  potencia : List String
  energia : List String
deriving DecidableEq, Repr

/-- The tariff schedule registry `TARIFF_PERIODS` of `server.py`. -/
def TARIFF_PERIODS : Tarifa → TariffCfg
  | .t20TD => ⟨["P1", "P2"], ["E1", "E2", "E3"]⟩
  | .t30TD => ⟨["P1", "P2", "P3", "P4", "P5", "P6"], ["E1", "E2", "E3", "E4", "E5", "E6"]⟩
  | .t61TD => ⟨["P1", "P2", "P3", "P4", "P5", "P6"], ["E1", "E2", "E3", "E4", "E5", "E6"]⟩

/-- A Python `Dict[str, float]` of per-period values, as an association list
(Python dict keys are unique; lookup takes the first match). -/
abbrev PMap := List (String × ℚ)

/-- `m.get(k, d)` on a Python dict. -/
def getD (m : PMap) (k : String) (d : ℚ) : ℚ := (List.lookup k m).getD d

/-- The key list of a period map (`dict.keys()`). -/
def keysOf (m : PMap) : List String := m.map Prod.fst

/-- Round half to even to an integer: the behaviour of Python's built-in
`round` on a value exactly between two integers. -/
def rhe (q : ℚ) : ℤ :=
  if 2 * q < 2 * ⌊q⌋ + 1 then ⌊q⌋
  else if 2 * ⌊q⌋ + 1 < 2 * q then ⌊q⌋ + 1
  else if ⌊q⌋ % 2 = 0 then ⌊q⌋ else ⌊q⌋ + 1

/-- `_round2` of `server.py`: `round(float(n), 2)`. -/
def _round2 (q : ℚ) : ℚ := rhe (q * 100) / 100

/-- `PlanInput` of `server.py`. -/
structure PlanInput where
  nombre : String := "Plan"
  precio_potencia : PMap
  precio_energia : PMap
  cargos_fijos_anual_eur : ℚ := 0
deriving DecidableEq, Repr

/-- The two validation error kinds raised by `_validate_periods`
(HTTP 400 with a message naming the field and the offending keys). -/
inductive VErr
  | unknownPeriod (field : String) (ks : List String)
  | missingPeriod (field : String) (ks : List String)
deriving DecidableEq, Repr

/-- The inner `_chk` of `_validate_periods`: unknown keys are reported
first, then missing keys, each with the field name and the key list. -/
def _chk (m : PMap) (must : List String) (name : String) : Except VErr Unit :=
  let desconocidos := (keysOf m).filter (fun k => !(must.contains k))
  let faltantes := must.filter (fun k => !((keysOf m).contains k))
  if desconocidos ≠ [] then .error (.unknownPeriod name desconocidos)
  else if faltantes ≠ [] then .error (.missingPeriod name faltantes)
  else .ok ()

/-- `_validate_periods` of `server.py`: checks the six (seven with billed
power) period maps in source order against the tariff's required sets. -/
def _validate_periods (tarifa : Tarifa) (energia_kwh pot_contr : PMap)
    (pot_fact : Option PMap) (plan_a plan_b : PlanInput) : Except VErr Unit := do
  let cfg := TARIFF_PERIODS tarifa
  _chk energia_kwh cfg.energia "energia_kwh"
  _chk pot_contr cfg.potencia "potencia_contratada_kw"
  match pot_fact with
  | some m => _chk m cfg.potencia "potencia_facturada_kw"
  | none => pure ()
  _chk plan_a.precio_energia cfg.energia "actual.precio_energia"
  _chk plan_b.precio_energia cfg.energia "propuesta.precio_energia"
  _chk plan_a.precio_potencia cfg.potencia "actual.precio_potencia"
  _chk plan_b.precio_potencia cfg.potencia "propuesta.precio_potencia"
  pure ()

/-- `BillBreakdown` of `server.py`. -/
structure BillBreakdown where
  potencia_anual : ℚ
  energia_anual : ℚ
  cargos_fijos_anual : ℚ
  impuesto_electricidad : ℚ
  iva : ℚ
  total_anual : ℚ
  total_mensual : ℚ
deriving DecidableEq, Repr

/-- `pot_base = pot_fact or pot_contr` — Python `or` falls back on a falsy
(empty) dict, not only on `None`. -/
def potBase (pot_contr : PMap) (pot_fact : Option PMap) : PMap :=
  match pot_fact with
  | some m => if m = [] then pot_contr else m
  | none => pot_contr

/-- `factor_pot = 365.0 if unidad_precio_potencia == "eur_kw_dia" else 1.0`. -/
def factorPot (unidad : String) : ℚ := if unidad = "eur_kw_dia" then 365 else 1

/-- The `pot_importes` loop of `_compute_bill`. -/
def potImportes (periods : List String) (base prices : PMap) (factor : ℚ)
    (rnd : Bool) : List ℚ :=
  periods.map (fun p =>
    if rnd then _round2 (getD base p 0 * getD prices p 0 * factor)
    else getD base p 0 * getD prices p 0 * factor)

/-- The `ene_importes` loop of `_compute_bill`. -/
def eneImportes (periods : List String) (ene prices : PMap) (rnd : Bool) : List ℚ :=
  periods.map (fun e =>
    if rnd then _round2 (getD ene e 0 * getD prices e 0)
    else getD ene e 0 * getD prices e 0)

/-- `_compute_bill` of `server.py`. -/
def _compute_bill (tarifa : Tarifa) (energia_kwh pot_contr : PMap)
    (pot_fact : Option PMap) (plan : PlanInput) (imp_elec_pct iva_pct : ℚ)
    (unidad_precio_potencia : String)
    (aplicar_ie_solo_a_pot_y_energia redondeo_por_linea redondear_impuestos : Bool) :
    BillBreakdown :=
  let cfg := TARIFF_PERIODS tarifa
  let pot_total := (potImportes cfg.potencia (potBase pot_contr pot_fact)
    plan.precio_potencia (factorPot unidad_precio_potencia) redondeo_por_linea).sum
  let ene_total := (eneImportes cfg.energia energia_kwh plan.precio_energia
    redondeo_por_linea).sum
  let base := pot_total + ene_total + plan.cargos_fijos_anual_eur
  let base_ie := if aplicar_ie_solo_a_pot_y_energia then pot_total + ene_total else base
  let imp_elec_calc := base_ie * imp_elec_pct
  let imp_elec := if redondear_impuestos then _round2 imp_elec_calc else imp_elec_calc
  let iva_calc := (base + imp_elec) * iva_pct
  let iva := if redondear_impuestos then _round2 iva_calc else iva_calc
  let total := base + imp_elec + iva
  { potencia_anual := _round2 pot_total
    energia_anual := _round2 ene_total
    cargos_fijos_anual := _round2 plan.cargos_fijos_anual_eur
    impuesto_electricidad := _round2 imp_elec
    iva := _round2 iva
    total_anual := _round2 total
    total_mensual := _round2 (total / 12) }

/-- `CompareInput` of `server.py`, defaults included. -/
structure CompareInput where
  tarifa : Tarifa
  energia_kwh : PMap
  potencia_contratada_kw : PMap
  potencia_facturada_kw : Option PMap := none
  actual : PlanInput
  propuesta : PlanInput
  impuesto_electricidad_pct : ℚ := 5112 / 100000
  iva_pct : ℚ := 21 / 100
  unidad_precio_potencia : String := "eur_kw_anio"
  aplicar_ie_solo_a_pot_y_energia : Bool := true
  redondeo_por_linea : Bool := true
  redondear_impuestos : Bool := true
deriving DecidableEq, Repr

/-- `CompareResult` of `server.py`. -/
structure CompareResult where
  tarifa : Tarifa
  actual : BillBreakdown
  propuesta : BillBreakdown
  ahorro_anual : ℚ
  ahorro_mensual : ℚ
  ahorro_pct : ℚ
deriving DecidableEq, Repr

/-- The validation call issued by `/compare` on its payload. -/
def validateOf (payload : CompareInput) : Except VErr Unit :=
  _validate_periods payload.tarifa payload.energia_kwh
    payload.potencia_contratada_kw payload.potencia_facturada_kw
    payload.actual payload.propuesta

/-- The `_compute_bill` call `/compare` issues for the "actual" plan. -/
def billActual (payload : CompareInput) : BillBreakdown :=
  _compute_bill payload.tarifa payload.energia_kwh
    payload.potencia_contratada_kw payload.potencia_facturada_kw payload.actual
    payload.impuesto_electricidad_pct payload.iva_pct
    payload.unidad_precio_potencia payload.aplicar_ie_solo_a_pot_y_energia
    payload.redondeo_por_linea payload.redondear_impuestos

/-- The `_compute_bill` call `/compare` issues for the "propuesta" plan. -/
def billPropuesta (payload : CompareInput) : BillBreakdown :=
  _compute_bill payload.tarifa payload.energia_kwh
    payload.potencia_contratada_kw payload.potencia_facturada_kw payload.propuesta
    payload.impuesto_electricidad_pct payload.iva_pct
    payload.unidad_precio_potencia payload.aplicar_ie_solo_a_pot_y_energia
    payload.redondeo_por_linea payload.redondear_impuestos

/-- The `/compare` endpoint body of `server.py`: validate, compute both
bills, derive the savings. -/
def compare (payload : CompareInput) : Except VErr CompareResult :=
  match validateOf payload with
  | .error e => .error e
  | .ok _ =>
    let actual := billActual payload
    let propuesta := billPropuesta payload
    let ahorro_anual := _round2 (actual.total_anual - propuesta.total_anual)
    let ahorro_mensual := _round2 (ahorro_anual / 12)
    let ahorro_pct := _round2
      (if actual.total_anual > 0 then ahorro_anual / actual.total_anual * 100 else 0)
    .ok { tarifa := payload.tarifa, actual := actual, propuesta := propuesta,
          ahorro_anual := ahorro_anual, ahorro_mensual := ahorro_mensual,
          ahorro_pct := ahorro_pct }

/-- Swapping the "actual" and "propuesta" plans of a payload. -/
def swapPlans (payload : CompareInput) : CompareInput :=
  { payload with actual := payload.propuesta, propuesta := payload.actual }

/-! ### Monthly Allocator (spec §4.5) -/

/-- Error kinds of the Monthly Allocator (spec §7): `MissingPeriod` and
`InvalidMonthlySeries`. -/
inductive AllocErr
  | missingPeriod (field : String) (ks : List String)
  | invalidMonthlySeries (period : String)
deriving DecidableEq, Repr

/-- Monthly energy input: per energy period, an ordered series of monthly
kWh values (required: exactly 12 entries per required period). -/
abbrev MMap := List (String × List ℚ)

/-- Modelled from the spec: step 1 of `allocate_monthly` (spec §4.5), whose
implementation is not under `src/`. Checks that every energy period required
by the tariff is present, that each required period's series has exactly 12
monthly values, and that the power periods are present for both plans;
fails with `MissingPeriod` or `InvalidMonthlySeries` accordingly. -/
def validate_monthly (tarifa : Tarifa) (monthly : MMap) (plan_a plan_b : PlanInput) :
    Except AllocErr Unit :=
  let cfg := TARIFF_PERIODS tarifa
  let missingE := cfg.energia.filter (fun e => (List.lookup e monthly).isNone)
  if missingE ≠ [] then .error (.missingPeriod "energia_mensual" missingE)
  else
    match cfg.energia.find? (fun e => !(((List.lookup e monthly).getD []).length == 12)) with
    | some e => .error (.invalidMonthlySeries e)
    | none =>
      let missA := cfg.potencia.filter (fun p => (List.lookup p plan_a.precio_potencia).isNone)
      if missA ≠ [] then .error (.missingPeriod "actual.precio_potencia" missA)
      else
        let missB := cfg.potencia.filter (fun p => (List.lookup p plan_b.precio_potencia).isNone)
        if missB ≠ [] then .error (.missingPeriod "propuesta.precio_potencia" missB)
        else .ok ()

/-- Monthly chart series for the two plans (spec §4.5 steps 2-4). -/
structure MonthlySeries where
  energia_actual : List ℚ
  energia_oferta : List ℚ
  potencia_actual : List ℚ
  potencia_oferta : List ℚ
  impuestos_actual : List ℚ
  impuestos_oferta : List ℚ
deriving DecidableEq, Repr

/-- Modelled from the spec: energy cost of one month for one plan
(spec §4.5 step 2). -/
def monthlyEnergyCost (cfg_ene : List String) (monthly : MMap) (plan : PlanInput)
    (month : Nat) : ℚ :=
  (cfg_ene.map (fun e => (((List.lookup e monthly).getD []).getD month 0) *
    getD plan.precio_energia e 0)).sum

/-- Modelled from the spec: annual power total of a plan, no per-line
rounding (spec §4.5 step 3). -/
def annualPowerTotal (cfg_pot : List String) (pot_contr : PMap) (plan : PlanInput) : ℚ :=
  (cfg_pot.map (fun p => getD pot_contr p 0 * getD plan.precio_potencia p 0)).sum

/-- Modelled from the spec: combined monthly tax line (spec §4.5 step 4). -/
def monthlyTax (energy power ie_pct iva_pct : ℚ) : ℚ :=
  (energy + power) * ie_pct + ((energy + power) + (energy + power) * ie_pct) * iva_pct

/-- Modelled from the spec: each energy period's 12 monthly values summed
into an annual total (spec §4.5 step 5). -/
def annualEnergyTotals (cfg_ene : List String) (monthly : MMap) : PMap :=
  cfg_ene.map (fun e => (e, ((List.lookup e monthly).getD []).sum))

/-- Modelled from the spec: `allocate_monthly` (spec §4.5), not present
under `src/`. Validates (step 1), then builds the twelve-month chart
series (steps 2-4) and the authoritative annual comparison through the
Bill Calculator (step 5). -/
def allocate_monthly (tarifa : Tarifa) (monthly : MMap) (pot_contr : PMap)
    (plan_a plan_b : PlanInput) (ie_pct iva_pct : ℚ) :
    Except AllocErr (MonthlySeries × CompareResult) :=
  match validate_monthly tarifa monthly plan_a plan_b with
  | .error e => .error e
  | .ok _ =>
    let cfg := TARIFF_PERIODS tarifa
    let months := List.range 12
    let powA := annualPowerTotal cfg.potencia pot_contr plan_a / 12
    let powB := annualPowerTotal cfg.potencia pot_contr plan_b / 12
    let series : MonthlySeries :=
      { energia_actual := months.map (fun m => _round2 (monthlyEnergyCost cfg.energia monthly plan_a m))
        energia_oferta := months.map (fun m => _round2 (monthlyEnergyCost cfg.energia monthly plan_b m))
        potencia_actual := months.map (fun _ => _round2 powA)
        potencia_oferta := months.map (fun _ => _round2 powB)
        impuestos_actual := months.map (fun m =>
          _round2 (monthlyTax (monthlyEnergyCost cfg.energia monthly plan_a m) powA ie_pct iva_pct))
        impuestos_oferta := months.map (fun m =>
          _round2 (monthlyTax (monthlyEnergyCost cfg.energia monthly plan_b m) powB ie_pct iva_pct)) }
    let actual := _compute_bill tarifa (annualEnergyTotals cfg.energia monthly) pot_contr none
      plan_a ie_pct iva_pct "eur_kw_anio" true true true
    let propuesta := _compute_bill tarifa (annualEnergyTotals cfg.energia monthly) pot_contr none
      plan_b ie_pct iva_pct "eur_kw_anio" true true true
    let ahorro_anual := _round2 (actual.total_anual - propuesta.total_anual)
    let ahorro_mensual := _round2 (ahorro_anual / 12)
    let ahorro_pct := _round2
      (if actual.total_anual > 0 then ahorro_anual / actual.total_anual * 100 else 0)
    .ok (series,
      { tarifa := tarifa, actual := actual, propuesta := propuesta,
        ahorro_anual := ahorro_anual, ahorro_mensual := ahorro_mensual,
        ahorro_pct := ahorro_pct })

/-! ### The validator as a first-failure scan over an ordered check list -/

/-- One pending check: the map, the required period list, the field name. -/
abbrev Chk := PMap × List String × String

/-- The checks `_validate_periods` performs, in source order. -/
def checksOf (tarifa : Tarifa) (energia_kwh pot_contr : PMap) (pot_fact : Option PMap)
    (plan_a plan_b : PlanInput) : List Chk :=
  let cfg := TARIFF_PERIODS tarifa
  [(energia_kwh, cfg.energia, "energia_kwh"),
   (pot_contr, cfg.potencia, "potencia_contratada_kw")] ++
  (match pot_fact with
   | some m => [(m, cfg.potencia, "potencia_facturada_kw")]
   | none => []) ++
  [(plan_a.precio_energia, cfg.energia, "actual.precio_energia"),
   (plan_b.precio_energia, cfg.energia, "propuesta.precio_energia"),
   (plan_a.precio_potencia, cfg.potencia, "actual.precio_potencia"),
   (plan_b.precio_potencia, cfg.potencia, "propuesta.precio_potencia")]

/-- Run a list of checks, stopping at the first failure. -/
def runChecks : List Chk → Except VErr Unit
  | [] => .ok ()
  | c :: rest => do
    _chk c.1 c.2.1 c.2.2
    runChecks rest

/-- A map's key set is exactly the required period set. -/
def exactKeys (m : PMap) (must : List String) : Prop :=
  (∀ k ∈ keysOf m, k ∈ must) ∧ (∀ k ∈ must, k ∈ keysOf m)

instance (m : PMap) (must : List String) : Decidable (exactKeys m must) := by
  unfold exactKeys
  infer_instance

/-! ### Concrete inputs used by witnesses and counterexamples -/

/-- Zero consumption on the `2.0TD` energy periods. -/
def eZ : PMap := [("E1", 0), ("E2", 0), ("E3", 0)]

/-- Zero contracted power on the `2.0TD` power periods. -/
def pZ : PMap := [("P1", 0), ("P2", 0)]

/-- A plan with all unit prices zero and a given fixed annual surcharge. -/
def planFix (c : ℚ) : PlanInput :=
  { precio_potencia := [("P1", 0), ("P2", 0)],
    precio_energia := [("E1", 0), ("E2", 0), ("E3", 0)],
    cargos_fijos_anual_eur := c }

/-- A zero-rate compare payload with fixed surcharges 120 vs 60. -/
def cmpC5 : CompareInput :=
  { tarifa := .t20TD, energia_kwh := eZ, potencia_contratada_kw := pZ,
    actual := planFix 120, propuesta := planFix 60,
    impuesto_electricidad_pct := 0, iva_pct := 0 }

/-- The breakdown of a `planFix c` bill at zero rates. -/
def billFix (c : ℚ) : BillBreakdown :=
  { potencia_anual := 0, energia_anual := 0, cargos_fijos_anual := _round2 c,
    impuesto_electricidad := 0, iva := 0, total_anual := _round2 c,
    total_mensual := _round2 (c / 12) }

/-- The result `/compare` returns on `cmpC5`. -/
def resC5 : CompareResult :=
  { tarifa := .t20TD, actual := billFix 120, propuesta := billFix 60,
    ahorro_anual := 60, ahorro_mensual := 5, ahorro_pct := 50 }

/-- The result `/compare` returns on `swapPlans cmpC5`. -/
def resC7 : CompareResult :=
  { tarifa := .t20TD, actual := billFix 60, propuesta := billFix 120,
    ahorro_anual := -60, ahorro_mensual := -5, ahorro_pct := -100 }

/-- A zero-rate compare payload with fixed surcharges 100.05 vs 100. -/
def cmpC10 : CompareInput :=
  { tarifa := .t20TD, energia_kwh := eZ, potencia_contratada_kw := pZ,
    actual := planFix (10005 / 100), propuesta := planFix 100,
    impuesto_electricidad_pct := 0, iva_pct := 0 }

/-- The result `/compare` returns on `cmpC10`. -/
def resC10 : CompareResult :=
  { tarifa := .t20TD, actual := billFix (10005 / 100), propuesta := billFix 100,
    ahorro_anual := 5 / 100, ahorro_mensual := 0, ahorro_pct := 5 / 100 }

/-- A payload whose energy map misses the required period `E3`. -/
def cmpBad : CompareInput :=
  { tarifa := .t20TD, energia_kwh := [("E1", 0), ("E2", 0)],
    potencia_contratada_kw := pZ,
    actual := planFix 120, propuesta := planFix 60,
    impuesto_electricidad_pct := 0, iva_pct := 0 }

/-- The `PELITO_ECO 2.0TD` plan of the offer catalog. -/
def planC2 : PlanInput :=
  { precio_potencia := [("P1", 3893 / 100), ("P2", 2069 / 100)],
    precio_energia := [("E1", 98155 / 1000000), ("E2", 98155 / 1000000),
      ("E3", 98155 / 1000000)],
    cargos_fijos_anual_eur := 0 }

/-- The bill of the spec §8 scenario: 300 kWh split over E1-E3, 5 kW on
P1 and P2, `planC2` prices, default policy toggles. -/
def billC2 : BillBreakdown :=
  _compute_bill .t20TD [("E1", 100), ("E2", 100), ("E3", 100)]
    [("P1", 5), ("P2", 5)] none planC2 (5112 / 100000) (21 / 100)
    "eur_kw_anio" true true true

/-- A plan with sub-cent unit prices, used with per-line rounding off. -/
def planC1x : PlanInput :=
  { precio_potencia := [("P1", 1 / 250), ("P2", 0)],
    precio_energia := [("E1", 1 / 250), ("E2", 0), ("E3", 0)],
    cargos_fijos_anual_eur := 0 }

/-- A bill computed with per-line rounding disabled whose stored rounded
fields do not sum to the stored rounded total. -/
def billC1x : BillBreakdown :=
  _compute_bill .t20TD [("E1", 1), ("E2", 0), ("E3", 0)] [("P1", 1), ("P2", 0)] none
    planC1x 0 0 "eur_kw_anio" true false true

/-- A plan with unit power prices, for the billed-power fallback tests. -/
def planOnes : PlanInput :=
  { precio_potencia := [("P1", 1), ("P2", 1)],
    precio_energia := [("E1", 0), ("E2", 0), ("E3", 0)],
    cargos_fijos_anual_eur := 0 }

/-- Contracted power 5 kW on both `2.0TD` periods. -/
def pc5 : PMap := [("P1", 5), ("P2", 5)]

/-- A bill with an empty (falsy) billed-power map and 5 kW contracted. -/
def billC9a : BillBreakdown :=
  _compute_bill .t20TD eZ pc5 (some []) planOnes 0 0 "eur_kw_anio" true true true

/-- The same bill with the contracted power changed to zero. -/
def billC9b : BillBreakdown :=
  _compute_bill .t20TD eZ pZ (some []) planOnes 0 0 "eur_kw_anio" true true true

/-- Twelve monthly zeros. -/
def z12 : List ℚ := List.replicate 12 0

/-- Eleven monthly zeros: an invalid series. -/
def z11 : List ℚ := List.replicate 11 0

/-- A monthly energy input whose `E3` series has 11 entries. -/
def monthly11 : MMap := [("E1", z12), ("E2", z12), ("E3", z11)]

/-- An energy map with the out-of-schedule key `E9` added. -/
def eUnk : PMap := [("E1", 0), ("E2", 0), ("E3", 0), ("E9", 0)]

/-- An energy map missing the required `2.0TD` period `E3`. -/
def eMiss : PMap := [("E1", 0), ("E2", 0)]

/-- A contracted-power map with the out-of-schedule key `P9` added. -/
def pcUnk : PMap := [("P1", 0), ("P2", 0), ("P9", 0)]

/-! ### Foundational lemmas about rounding and map lookup -/

theorem rhe_intCast (n : ℤ) : rhe (n : ℚ) = n := by
  have hf : ⌊(n : ℚ)⌋ = n := Int.floor_intCast n
  have h : 2 * (n : ℚ) < 2 * (⌊(n : ℚ)⌋ : ℚ) + 1 := by
    rw [hf]; linarith
  rw [rhe, if_pos h, hf]

theorem rhe_eq (q : ℚ) (n : ℤ) (h1 : 2 * (n : ℚ) - 1 < 2 * q)
    (h2 : 2 * q < 2 * (n : ℚ) + 1) : rhe q = n := by
  rcases le_or_lt (n : ℚ) q with hle | hlt
  · have hf : ⌊q⌋ = n := by
      rw [Int.floor_eq_iff]
      constructor
      · exact_mod_cast hle
      · linarith
    have hcond : 2 * q < 2 * (⌊q⌋ : ℚ) + 1 := by rw [hf]; linarith
    rw [rhe, if_pos hcond, hf]
  · have hf : ⌊q⌋ = n - 1 := by
      rw [Int.floor_eq_iff]
      constructor
      · push_cast
        linarith
      · push_cast
        linarith
    have hcond1 : ¬ (2 * q < 2 * (⌊q⌋ : ℚ) + 1) := by
      rw [hf]; push_cast; linarith
    have hcond2 : 2 * (⌊q⌋ : ℚ) + 1 < 2 * q := by
      rw [hf]; push_cast; linarith
    rw [rhe, if_neg hcond1, if_pos hcond2, hf]
    omega

theorem round2_eq (q : ℚ) (n : ℤ) (h1 : 2 * (n : ℚ) - 1 < 2 * (q * 100))
    (h2 : 2 * (q * 100) < 2 * (n : ℚ) + 1) : _round2 q = n / 100 := by
  rw [_round2, rhe_eq (q * 100) n h1 h2]

/-- A rational that is a whole number of cents. -/
def IsCent (q : ℚ) : Prop := ∃ n : ℤ, q = n / 100

theorem isCent_round2 (q : ℚ) : IsCent (_round2 q) := ⟨rhe (q * 100), rfl⟩

theorem round2_of_isCent (q : ℚ) (h : IsCent q) : _round2 q = q := by
  obtain ⟨n, rfl⟩ := h
  have h100 : ((n : ℚ) / 100) * 100 = (n : ℚ) := by
    field_simp
  rw [_round2, h100, rhe_intCast]

theorem IsCent.add {a b : ℚ} (ha : IsCent a) (hb : IsCent b) : IsCent (a + b) := by
  obtain ⟨n, rfl⟩ := ha
  obtain ⟨m, rfl⟩ := hb
  exact ⟨n + m, by push_cast; ring⟩

theorem IsCent.zero : IsCent (0 : ℚ) := ⟨0, by norm_num⟩

theorem IsCent.neg_mem {a : ℚ} (ha : IsCent a) : IsCent (-a) := by
  obtain ⟨n, rfl⟩ := ha
  exact ⟨-n, by push_cast; ring⟩

theorem IsCent.sub {a b : ℚ} (ha : IsCent a) (hb : IsCent b) : IsCent (a - b) := by
  obtain ⟨n, rfl⟩ := ha
  obtain ⟨m, rfl⟩ := hb
  exact ⟨n - m, by push_cast; ring⟩

theorem isCent_sum (l : List ℚ) (h : ∀ x ∈ l, IsCent x) : IsCent l.sum := by
  induction l with
  | nil => simpa using IsCent.zero
  | cons a t ih =>
    rw [List.sum_cons]
    exact (h a (List.mem_cons_self a t)).add (ih fun x hx => h x (List.mem_cons_of_mem a hx))

theorem getD_nil (k : String) (d : ℚ) : getD [] k d = d := rfl

theorem getD_cons (k k' : String) (v : ℚ) (l : PMap) (d : ℚ) :
    getD ((k', v) :: l) k d = if k = k' then v else getD l k d := by
  rcases eq_or_ne k k' with h | h
  · subst h
    simp [getD, List.lookup]
  · have hb : (k == k') = false := beq_eq_false_iff_ne.mpr h
    rw [if_neg h]
    simp [getD, List.lookup, hb]

theorem getD_not_mem (m : PMap) (k : String) (d : ℚ) (h : k ∉ keysOf m) :
    getD m k d = d := by
  induction m with
  | nil => rfl
  | cons a t ih =>
    obtain ⟨k', v⟩ := a
    have hk : k ≠ k' := by
      intro he
      exact h (by simp [keysOf, he])
    rw [getD_cons, if_neg hk]
    exact ih (fun hm => h (by simp [keysOf] at hm ⊢; exact Or.inr hm))

theorem round2_zero : _round2 0 = 0 :=
  round2_of_isCent 0 ⟨0, by norm_num⟩

/-! ### Structural lemmas about `compare` and `_compute_bill` -/

theorem compare_ok_elim (p : CompareInput) (r : CompareResult) (h : compare p = .ok r) :
    r.tarifa = p.tarifa ∧ r.actual = billActual p ∧ r.propuesta = billPropuesta p ∧
    r.ahorro_anual = _round2 ((billActual p).total_anual - (billPropuesta p).total_anual) ∧
    r.ahorro_mensual = _round2 (r.ahorro_anual / 12) ∧
    r.ahorro_pct = _round2 (if (billActual p).total_anual > 0
      then r.ahorro_anual / (billActual p).total_anual * 100 else 0) := by
  unfold compare at h
  cases hv : validateOf p with
  | error e => rw [hv] at h; exact absurd h (by simp)
  | ok u =>
    rw [hv] at h
    simp only [Except.ok.injEq] at h
    subst h
    exact ⟨rfl, rfl, rfl, rfl, rfl, rfl⟩

theorem compare_error_iff (p : CompareInput) (e : VErr) :
    compare p = .error e ↔ validateOf p = .error e := by
  unfold compare
  cases hv : validateOf p with
  | error e2 => simp
  | ok u => simp

theorem isCent_bill_total (t : Tarifa) (e pc : PMap) (pf : Option PMap) (pl : PlanInput)
    (ie iv : ℚ) (u : String) (a rl ri : Bool) :
    IsCent (_compute_bill t e pc pf pl ie iv u a rl ri).total_anual := by
  simp only [_compute_bill]
  exact isCent_round2 _

theorem isCent_billActual_total (p : CompareInput) : IsCent (billActual p).total_anual :=
  isCent_bill_total _ _ _ _ _ _ _ _ _ _ _

theorem isCent_billPropuesta_total (p : CompareInput) : IsCent (billPropuesta p).total_anual :=
  isCent_bill_total _ _ _ _ _ _ _ _ _ _ _

theorem billActual_swap (p : CompareInput) : billActual (swapPlans p) = billPropuesta p := rfl

theorem billPropuesta_swap (p : CompareInput) : billPropuesta (swapPlans p) = billActual p := rfl

/-! ### Concrete evaluations -/

theorem bill_planFix (c : ℚ) :
    _compute_bill .t20TD eZ pZ none (planFix c) 0 0 "eur_kw_anio" true true true =
      billFix c := by
  simp only [_compute_bill, potImportes, eneImportes, potBase, factorPot, TARIFF_PERIODS,
    planFix, eZ, pZ, billFix, List.map, List.sum_cons, List.sum_nil, getD_cons, getD_nil,
    reduceIte, String.reduceEq, BillBreakdown.mk.injEq]
  norm_num [round2_zero]

theorem compare_cmpC5 : compare cmpC5 = .ok resC5 := by
  have hv : validateOf cmpC5 = .ok () := rfl
  have ha : billActual cmpC5 = billFix 120 := bill_planFix 120
  have hb : billPropuesta cmpC5 = billFix 60 := bill_planFix 60
  have r120 : _round2 (120 : ℚ) = 120 := by
    rw [round2_eq _ 12000 (by norm_num) (by norm_num)]; norm_num
  have r60 : _round2 (60 : ℚ) = 60 := by
    rw [round2_eq _ 6000 (by norm_num) (by norm_num)]; norm_num
  have r5 : _round2 (5 : ℚ) = 5 := by
    rw [round2_eq _ 500 (by norm_num) (by norm_num)]; norm_num
  have r50 : _round2 (50 : ℚ) = 50 := by
    rw [round2_eq _ 5000 (by norm_num) (by norm_num)]; norm_num
  unfold compare
  rw [hv, ha, hb]
  norm_num [billFix, resC5, cmpC5, r120, r60, r5, r50,
    CompareResult.mk.injEq, BillBreakdown.mk.injEq]

theorem compare_swap_cmpC5 : compare (swapPlans cmpC5) = .ok resC7 := by
  have hv : validateOf (swapPlans cmpC5) = .ok () := rfl
  have ha : billActual (swapPlans cmpC5) = billFix 60 := bill_planFix 60
  have hb : billPropuesta (swapPlans cmpC5) = billFix 120 := bill_planFix 120
  have r120 : _round2 (120 : ℚ) = 120 := by
    rw [round2_eq _ 12000 (by norm_num) (by norm_num)]; norm_num
  have r60 : _round2 (60 : ℚ) = 60 := by
    rw [round2_eq _ 6000 (by norm_num) (by norm_num)]; norm_num
  have r5 : _round2 (5 : ℚ) = 5 := by
    rw [round2_eq _ 500 (by norm_num) (by norm_num)]; norm_num
  have rn60 : _round2 (-60 : ℚ) = -60 := by
    rw [round2_eq _ (-6000) (by norm_num) (by norm_num)]; norm_num
  have rn5 : _round2 (-5 : ℚ) = -5 := by
    rw [round2_eq _ (-500) (by norm_num) (by norm_num)]; norm_num
  have rn100 : _round2 (-100 : ℚ) = -100 := by
    rw [round2_eq _ (-10000) (by norm_num) (by norm_num)]; norm_num
  unfold compare
  rw [hv, ha, hb]
  norm_num [billFix, resC7, swapPlans, cmpC5, r120, r60, r5, rn60, rn5, rn100,
    CompareResult.mk.injEq, BillBreakdown.mk.injEq]

theorem compare_cmpC10 : compare cmpC10 = .ok resC10 := by
  have hv : validateOf cmpC10 = .ok () := rfl
  have ha : billActual cmpC10 = billFix (10005 / 100) := bill_planFix (10005 / 100)
  have hb : billPropuesta cmpC10 = billFix 100 := bill_planFix 100
  have q1 : _round2 ((2001 : ℚ) / 20) = 2001 / 20 := by
    rw [round2_eq _ 10005 (by norm_num) (by norm_num)]; norm_num
  have q2 : _round2 ((667 : ℚ) / 80) = 417 / 50 := by
    rw [round2_eq _ 834 (by norm_num) (by norm_num)]; norm_num
  have q3 : _round2 (100 : ℚ) = 100 := by
    rw [round2_eq _ 10000 (by norm_num) (by norm_num)]; norm_num
  have q4 : _round2 ((25 : ℚ) / 3) = 833 / 100 := by
    rw [round2_eq _ 833 (by norm_num) (by norm_num)]; norm_num
  have q5 : _round2 ((1 : ℚ) / 20) = 1 / 20 := by
    rw [round2_eq _ 5 (by norm_num) (by norm_num)]; norm_num
  have q6 : _round2 ((1 : ℚ) / 240) = 0 := by
    rw [round2_eq _ 0 (by norm_num) (by norm_num)]; norm_num
  have q7 : _round2 ((100 : ℚ) / 2001) = 1 / 20 := by
    rw [round2_eq _ 5 (by norm_num) (by norm_num)]; norm_num
  unfold compare
  rw [hv, ha, hb]
  norm_num [billFix, resC10, cmpC10, q1, q2, q3, q4, q5, q6, q7,
    CompareResult.mk.injEq, BillBreakdown.mk.injEq]

theorem billC2_eval : billC2 =
    { potencia_anual := 29810 / 100, energia_anual := 2946 / 100,
      cargos_fijos_anual := 0, impuesto_electricidad := 1674 / 100,
      iva := 7230 / 100, total_anual := 41660 / 100, total_mensual := 3472 / 100 } := by
  have a1 : _round2 ((3893 : ℚ) / 20) = 3893 / 20 := by
    rw [round2_eq _ 19465 (by norm_num) (by norm_num)]; norm_num
  have a2 : _round2 ((2069 : ℚ) / 20) = 2069 / 20 := by
    rw [round2_eq _ 10345 (by norm_num) (by norm_num)]; norm_num
  have a3 : _round2 ((19631 : ℚ) / 2000) = 491 / 50 := by
    rw [round2_eq _ 982 (by norm_num) (by norm_num)]; norm_num
  have a4 : _round2 ((2981 : ℚ) / 10) = 2981 / 10 := by
    rw [round2_eq _ 29810 (by norm_num) (by norm_num)]; norm_num
  have a5 : _round2 ((1473 : ℚ) / 50) = 1473 / 50 := by
    rw [round2_eq _ 2946 (by norm_num) (by norm_num)]; norm_num
  have a6 : _round2 ((5232771 : ℚ) / 312500) = 837 / 50 := by
    rw [round2_eq _ 1674 (by norm_num) (by norm_num)]; norm_num
  have a7 : _round2 ((837 : ℚ) / 50) = 837 / 50 := by
    rw [round2_eq _ 1674 (by norm_num) (by norm_num)]; norm_num
  have a8 : _round2 ((72303 : ℚ) / 1000) = 723 / 10 := by
    rw [round2_eq _ 7230 (by norm_num) (by norm_num)]; norm_num
  have a9 : _round2 ((723 : ℚ) / 10) = 723 / 10 := by
    rw [round2_eq _ 7230 (by norm_num) (by norm_num)]; norm_num
  have a10 : _round2 ((2083 : ℚ) / 5) = 2083 / 5 := by
    rw [round2_eq _ 41660 (by norm_num) (by norm_num)]; norm_num
  have a11 : _round2 ((2083 : ℚ) / 60) = 868 / 25 := by
    rw [round2_eq _ 3472 (by norm_num) (by norm_num)]; norm_num
  simp only [billC2, planC2, _compute_bill, potImportes, eneImportes, potBase, factorPot,
    TARIFF_PERIODS, List.map, List.sum_cons, List.sum_nil, getD_cons, getD_nil,
    reduceIte, String.reduceEq, BillBreakdown.mk.injEq]
  norm_num [a1, a2, a3, a4, a5, a6, a7, a8, a9, a10, a11, round2_zero]

theorem billC1x_eval : billC1x =
    { potencia_anual := 0, energia_anual := 0, cargos_fijos_anual := 0,
      impuesto_electricidad := 0, iva := 0, total_anual := 1 / 100,
      total_mensual := 0 } := by
  have b1 : _round2 ((1 : ℚ) / 250) = 0 := by
    rw [round2_eq _ 0 (by norm_num) (by norm_num)]; norm_num
  have b2 : _round2 ((1 : ℚ) / 125) = 1 / 100 := by
    rw [round2_eq _ 1 (by norm_num) (by norm_num)]; norm_num
  have b3 : _round2 ((1 : ℚ) / 1500) = 0 := by
    rw [round2_eq _ 0 (by norm_num) (by norm_num)]; norm_num
  simp only [billC1x, planC1x, _compute_bill, potImportes, eneImportes, potBase, factorPot,
    TARIFF_PERIODS, List.map, List.sum_cons, List.sum_nil, getD_cons, getD_nil,
    reduceIte, String.reduceEq, BillBreakdown.mk.injEq]
  norm_num [b1, b2, b3, round2_zero]

theorem billC9a_pot : billC9a.potencia_anual = 10 := by
  have c1 : _round2 (5 : ℚ) = 5 := by
    rw [round2_eq _ 500 (by norm_num) (by norm_num)]; norm_num
  have c2 : _round2 (10 : ℚ) = 10 := by
    rw [round2_eq _ 1000 (by norm_num) (by norm_num)]; norm_num
  simp only [billC9a, planOnes, _compute_bill, potImportes, eneImportes, potBase, factorPot,
    TARIFF_PERIODS, pc5, eZ, List.map, List.sum_cons, List.sum_nil, getD_cons, getD_nil,
    reduceIte, String.reduceEq]
  norm_num [c1, c2]

theorem billC9b_pot : billC9b.potencia_anual = 0 := by
  simp only [billC9b, planOnes, _compute_bill, potImportes, eneImportes, potBase, factorPot,
    TARIFF_PERIODS, pZ, eZ, List.map, List.sum_cons, List.sum_nil, getD_cons, getD_nil,
    reduceIte, String.reduceEq]
  norm_num [round2_zero]

/-! ### Lemmas about the period validator -/

theorem unknowns_nil_iff (m : PMap) (must : List String) :
    (keysOf m).filter (fun k => !(must.contains k)) = [] ↔ ∀ k ∈ keysOf m, k ∈ must := by
  rw [List.filter_eq_nil_iff]
  simp

theorem missing_nil_iff (m : PMap) (must : List String) :
    must.filter (fun k => !((keysOf m).contains k)) = [] ↔ ∀ k ∈ must, k ∈ keysOf m := by
  rw [List.filter_eq_nil_iff]
  simp

theorem chk_ok_iff (m : PMap) (must : List String) (nm : String) :
    _chk m must nm = .ok () ↔ exactKeys m must := by
  unfold _chk exactKeys
  by_cases h1 : (keysOf m).filter (fun k => !(must.contains k)) = []
  · by_cases h2 : must.filter (fun k => !((keysOf m).contains k)) = []
    · rw [if_neg (fun hc => hc h1), if_neg (fun hc => hc h2)]
      constructor
      · intro _
        exact ⟨(unknowns_nil_iff m must).mp h1, (missing_nil_iff m must).mp h2⟩
      · intro _
        rfl
    · rw [if_neg (fun hc => hc h1), if_pos h2]
      constructor
      · intro hcontra
        exact absurd hcontra (by simp)
      · intro hex
        exact absurd ((missing_nil_iff m must).mpr hex.2) h2
  · rw [if_pos h1]
    constructor
    · intro hcontra
      exact absurd hcontra (by simp)
    · intro hex
      exact absurd ((unknowns_nil_iff m must).mpr hex.1) h1

theorem chk_unknown (m : PMap) (must : List String) (nm : String)
    (h1 : (keysOf m).filter (fun k => !(must.contains k)) ≠ []) :
    _chk m must nm = .error (.unknownPeriod nm
      ((keysOf m).filter (fun k => !(must.contains k)))) := by
  unfold _chk
  rw [if_pos h1]

theorem chk_missing (m : PMap) (must : List String) (nm : String)
    (h1 : (keysOf m).filter (fun k => !(must.contains k)) = [])
    (h2 : must.filter (fun k => !((keysOf m).contains k)) ≠ []) :
    _chk m must nm = .error (.missingPeriod nm
      (must.filter (fun k => !((keysOf m).contains k)))) := by
  unfold _chk
  rw [if_neg (fun hc => hc h1), if_pos h2]

theorem runChecks_cons_error (c : Chk) (L : List Chk) (e : VErr)
    (h : _chk c.1 c.2.1 c.2.2 = .error e) : runChecks (c :: L) = .error e := by
  show Bind.bind (_chk c.1 c.2.1 c.2.2) (fun _ => runChecks L) = .error e
  rw [h]
  rfl

theorem runChecks_cons_ok (c : Chk) (L : List Chk)
    (h : _chk c.1 c.2.1 c.2.2 = .ok ()) : runChecks (c :: L) = runChecks L := by
  show Bind.bind (_chk c.1 c.2.1 c.2.2) (fun _ => runChecks L) = runChecks L
  rw [h]
  rfl

theorem runChecks_ok_iff (L : List Chk) :
    runChecks L = .ok () ↔ ∀ c ∈ L, exactKeys c.1 c.2.1 := by
  induction L with
  | nil => simp [runChecks]
  | cons c t ih =>
    by_cases hc : exactKeys c.1 c.2.1
    · rw [runChecks_cons_ok c t ((chk_ok_iff c.1 c.2.1 c.2.2).mpr hc), ih]
      simp [hc]
    · have hne : _chk c.1 c.2.1 c.2.2 ≠ .ok () :=
        fun h => hc ((chk_ok_iff c.1 c.2.1 c.2.2).mp h)
      cases hchk : _chk c.1 c.2.1 c.2.2 with
      | ok u =>
        cases u
        exact absurd hchk hne
      | error e =>
        rw [runChecks_cons_error c t e hchk]
        constructor
        · intro hcontra
          exact absurd hcontra (by simp)
        · intro hall
          exact absurd (hall c (List.mem_cons_self c t)) hc

theorem runChecks_append_ok (L1 L2 : List Chk) (h : ∀ c ∈ L1, exactKeys c.1 c.2.1) :
    runChecks (L1 ++ L2) = runChecks L2 := by
  induction L1 with
  | nil => rfl
  | cons c t ih =>
    rw [List.cons_append,
      runChecks_cons_ok _ _ ((chk_ok_iff c.1 c.2.1 c.2.2).mpr (h c (List.mem_cons_self c t)))]
    exact ih (fun c' hc' => h c' (List.mem_cons_of_mem c hc'))

theorem validate_eq_runChecks (t : Tarifa) (e pc : PMap) (pf : Option PMap)
    (pa pb : PlanInput) :
    _validate_periods t e pc pf pa pb = runChecks (checksOf t e pc pf pa pb) := by
  cases pf <;> rfl

/-! ### Lemmas about the monthly allocator -/

theorem alloc_of_validate_error (t : Tarifa) (monthly : MMap) (pc : PMap)
    (pa pb : PlanInput) (ie iv : ℚ) (er : AllocErr)
    (h : validate_monthly t monthly pa pb = .error er) :
    allocate_monthly t monthly pc pa pb ie iv = .error er := by
  unfold allocate_monthly
  rw [h]

theorem validate_monthly_missing (t : Tarifa) (monthly : MMap) (pa pb : PlanInput)
    (h : ∃ e ∈ (TARIFF_PERIODS t).energia, List.lookup e monthly = none) :
    validate_monthly t monthly pa pb = .error (.missingPeriod "energia_mensual"
      ((TARIFF_PERIODS t).energia.filter (fun e => (List.lookup e monthly).isNone))) := by
  have hne : (TARIFF_PERIODS t).energia.filter
      (fun e => (List.lookup e monthly).isNone) ≠ [] := by
    obtain ⟨e, he, hn⟩ := h
    exact List.ne_nil_of_mem (List.mem_filter.mpr ⟨he, by simp [hn]⟩)
  simp only [validate_monthly]
  rw [if_pos hne]

theorem validate_monthly_badlen (t : Tarifa) (monthly : MMap) (pa pb : PlanInput)
    (hpres : ∀ e ∈ (TARIFF_PERIODS t).energia, (List.lookup e monthly).isSome)
    (hbad : ∃ e ∈ (TARIFF_PERIODS t).energia,
      ((List.lookup e monthly).getD []).length ≠ 12) :
    ∃ e, validate_monthly t monthly pa pb = .error (.invalidMonthlySeries e) ∧
      e ∈ (TARIFF_PERIODS t).energia ∧
      ((List.lookup e monthly).getD []).length ≠ 12 := by
  have hnil : (TARIFF_PERIODS t).energia.filter
      (fun e => (List.lookup e monthly).isNone) = [] := by
    rw [List.filter_eq_nil_iff]
    intro a ha hcontra
    have h2 := hpres a ha
    rw [Option.isNone_iff_eq_none] at hcontra
    rw [hcontra] at h2
    simp at h2
  have hfind : ((TARIFF_PERIODS t).energia.find?
      (fun e => !(((List.lookup e monthly).getD []).length == 12))).isSome := by
    rw [List.find?_isSome]
    obtain ⟨e, he, hlen⟩ := hbad
    exact ⟨e, he, by simpa using hlen⟩
  obtain ⟨e, hfe⟩ := Option.isSome_iff_exists.mp hfind
  refine ⟨e, ?_, List.mem_of_find?_eq_some hfe, by simpa using List.find?_some hfe⟩
  simp only [validate_monthly]
  rw [if_neg (fun hc => hc hnil), hfe]

/-! ### Congruence lemmas: absent periods contribute zero -/

theorem getD_cons_zero (m : PMap) (p : String) (h : p ∉ keysOf m) (k : String) :
    getD ((p, 0) :: m) k 0 = getD m k 0 := by
  rw [getD_cons]
  rcases eq_or_ne k p with rfl | hne
  · rw [if_pos rfl, getD_not_mem m k 0 h]
  · rw [if_neg hne]

theorem potImportes_congr (per : List String) (b b2 pr pr2 : PMap) (f : ℚ) (rnd : Bool)
    (hb : ∀ k, getD b k 0 = getD b2 k 0) (hp : ∀ k, getD pr k 0 = getD pr2 k 0) :
    potImportes per b pr f rnd = potImportes per b2 pr2 f rnd := by
  unfold potImportes
  exact List.map_congr_left (fun a _ => by rw [hb a, hp a])

theorem eneImportes_congr (per : List String) (e e2 pr pr2 : PMap) (rnd : Bool)
    (he : ∀ k, getD e k 0 = getD e2 k 0) (hp : ∀ k, getD pr k 0 = getD pr2 k 0) :
    eneImportes per e pr rnd = eneImportes per e2 pr2 rnd := by
  unfold eneImportes
  exact List.map_congr_left (fun a _ => by rw [he a, hp a])

theorem potBase_none (pc : PMap) : potBase pc none = pc := rfl

theorem potBase_some_nil (pc : PMap) : potBase pc (some []) = pc := by
  simp [potBase]

theorem potBase_some_ne (pc m : PMap) (h : m ≠ []) : potBase pc (some m) = m := by
  simp [potBase, h]

theorem compute_bill_ene_congr (t : Tarifa) (e e2 pc : PMap) (pf : Option PMap)
    (pl : PlanInput) (ie iv : ℚ) (u : String) (a rl ri : Bool)
    (h : ∀ k, getD e k 0 = getD e2 k 0) :
    _compute_bill t e pc pf pl ie iv u a rl ri = _compute_bill t e2 pc pf pl ie iv u a rl ri := by
  simp only [_compute_bill]
  rw [eneImportes_congr (TARIFF_PERIODS t).energia e e2 pl.precio_energia pl.precio_energia rl h
    (fun k => rfl)]

theorem compute_bill_pot_congr (t : Tarifa) (e pc pc2 : PMap) (pl : PlanInput)
    (ie iv : ℚ) (u : String) (a rl ri : Bool)
    (h : ∀ k, getD pc k 0 = getD pc2 k 0) :
    _compute_bill t e pc none pl ie iv u a rl ri = _compute_bill t e pc2 none pl ie iv u a rl ri := by
  simp only [_compute_bill]
  rw [potImportes_congr (TARIFF_PERIODS t).potencia (potBase pc none) (potBase pc2 none)
    pl.precio_potencia pl.precio_potencia (factorPot u) rl (fun k => h k) (fun k => rfl)]

theorem compute_bill_billed_irrel (t : Tarifa) (e pc pc2 : PMap) (m : PMap)
    (pl : PlanInput) (ie iv : ℚ) (u : String) (a rl ri : Bool) (hm : m ≠ []) :
    _compute_bill t e pc (some m) pl ie iv u a rl ri =
      _compute_bill t e pc2 (some m) pl ie iv u a rl ri := by
  simp only [_compute_bill]
  rw [potBase_some_ne pc m hm, potBase_some_ne pc2 m hm]

theorem compute_bill_plan_congr (t : Tarifa) (e pc : PMap) (pf : Option PMap)
    (pl pl2 : PlanInput) (ie iv : ℚ) (u : String) (a rl ri : Bool)
    (hfix : pl.cargos_fijos_anual_eur = pl2.cargos_fijos_anual_eur)
    (hpp : ∀ k, getD pl.precio_potencia k 0 = getD pl2.precio_potencia k 0)
    (hpe : ∀ k, getD pl.precio_energia k 0 = getD pl2.precio_energia k 0) :
    _compute_bill t e pc pf pl ie iv u a rl ri = _compute_bill t e pc pf pl2 ie iv u a rl ri := by
  simp only [_compute_bill]
  rw [potImportes_congr (TARIFF_PERIODS t).potencia (potBase pc pf) (potBase pc pf)
    pl.precio_potencia pl2.precio_potencia (factorPot u) rl (fun k => rfl) hpp,
    eneImportes_congr (TARIFF_PERIODS t).energia e e pl.precio_energia pl2.precio_energia rl
    (fun k => rfl) hpe, hfix]

/-! ### Per-line rounded sums are whole cents -/

theorem isCent_potImportes_sum (per : List String) (b pr : PMap) (f : ℚ) :
    IsCent ((potImportes per b pr f true).sum) := by
  apply isCent_sum
  intro x hx
  simp only [potImportes, List.mem_map] at hx
  obtain ⟨p, -, rfl⟩ := hx
  rw [if_pos trivial]
  exact isCent_round2 _

theorem isCent_eneImportes_sum (per : List String) (e pr : PMap) :
    IsCent ((eneImportes per e pr true).sum) := by
  apply isCent_sum
  intro x hx
  simp only [eneImportes, List.mem_map] at hx
  obtain ⟨p, -, rfl⟩ := hx
  rw [if_pos trivial]
  exact isCent_round2 _

/-! ### The claims -/

/-- C1, counterexample: with per-line rounding disabled (one of the four
policy toggles), the stored rounded total of `billC1x` is 0.01 while the
stored rounded component fields sum to 0, so the claimed identity fails. -/
theorem claim_C1_cex :
    billC1x.total_anual ≠ billC1x.potencia_anual + billC1x.energia_anual +
      billC1x.cargos_fijos_anual + billC1x.impuesto_electricidad + billC1x.iva := by
  rw [billC1x_eval]
  norm_num

/-- C1 (amended): when both rounding toggles (`redondeo_por_linea` and
`redondear_impuestos`) are on and the plan's fixed annual surcharge is a
whole number of cents, every `_compute_bill` result satisfies
`total_anual = potencia_anual + energia_anual + cargos_fijos_anual +
impuesto_electricidad + iva` and `total_mensual = round2(total_anual / 12)`. -/
theorem claim_C1_total_is_sum (t : Tarifa) (e pc : PMap) (pf : Option PMap)
    (pl : PlanInput) (ie iv : ℚ) (u : String) (a : Bool) (b : BillBreakdown)
    (hc : IsCent pl.cargos_fijos_anual_eur)
    (hb : b = _compute_bill t e pc pf pl ie iv u a true true) :
    b.total_anual = b.potencia_anual + b.energia_anual + b.cargos_fijos_anual +
      b.impuesto_electricidad + b.iva ∧
    b.total_mensual = _round2 (b.total_anual / 12) := by
  subst hb
  simp only [_compute_bill, reduceIte]
  generalize hgP : (potImportes (TARIFF_PERIODS t).potencia (potBase pc pf)
    pl.precio_potencia (factorPot u) true).sum = P
  generalize hgE : (eneImportes (TARIFF_PERIODS t).energia e pl.precio_energia true).sum = E
  generalize hgc : pl.cargos_fijos_anual_eur = c
  have hP : IsCent P := hgP ▸ isCent_potImportes_sum _ _ _ _
  have hE : IsCent E := hgE ▸ isCent_eneImportes_sum _ _ _
  have hc2 : IsCent c := hgc ▸ hc
  generalize hgIE : _round2 ((if a = true then P + E else P + E + c) * ie) = IE
  have hIE : IsCent IE := hgIE ▸ isCent_round2 _
  generalize hgIVA : _round2 ((P + E + c + IE) * iv) = IVA
  have hIVA : IsCent IVA := hgIVA ▸ isCent_round2 _
  constructor
  · rw [round2_of_isCent _ ((((hP.add hE).add hc2).add hIE).add hIVA),
      round2_of_isCent _ hP, round2_of_isCent _ hE, round2_of_isCent _ hc2,
      round2_of_isCent _ hIE, round2_of_isCent _ hIVA]
  · rw [round2_of_isCent _ ((((hP.add hE).add hc2).add hIE).add hIVA)]

/-- C1, witness: the amended invariant holds on the concrete spec §8
scenario bill `billC2` (both rounding toggles on, surcharge 0). -/
theorem claim_C1_witness :
    billC2.total_anual = billC2.potencia_anual + billC2.energia_anual +
      billC2.cargos_fijos_anual + billC2.impuesto_electricidad + billC2.iva ∧
    billC2.total_mensual = _round2 (billC2.total_anual / 12) :=
  claim_C1_total_is_sum .t20TD [("E1", 100), ("E2", 100), ("E3", 100)]
    [("P1", 5), ("P2", 5)] none planC2 (5112 / 100000) (21 / 100) "eur_kw_anio" true
    billC2 ⟨0, by norm_num [planC2]⟩ rfl

/-- C2, counterexample: on the spec §8 scenario the code rounds each of the
three 9.8155 energy lines to 9.82 before summing, so `energia_anual` is
29.46, not the claimed 29.45. -/
theorem claim_C2_cex : billC2.energia_anual ≠ 2945 / 100 := by
  rw [billC2_eval]
  norm_num

/-- C2 (amended): on the spec §8 scenario, `_compute_bill` returns
`potencia_anual = 298.10`, `energia_anual = 29.46` (per-line rounding),
`impuesto_electricidad = 16.74`, `iva = 72.30`, `total_anual = 416.60`. -/
theorem claim_C2_scenario :
    billC2.potencia_anual = 29810 / 100 ∧ billC2.energia_anual = 2946 / 100 ∧
    billC2.impuesto_electricidad = 1674 / 100 ∧ billC2.iva = 7230 / 100 ∧
    billC2.total_anual = 41660 / 100 := by
  rw [billC2_eval]
  exact ⟨rfl, rfl, rfl, rfl, rfl⟩

/-- C3, counterexample: with the energy map missing `E3` and the
contracted-power map carrying the unknown key `P9`, the validator fails
with `MissingPeriod` on `energia_kwh` — not with `UnknownPeriod` — even
though a supplied map does contain a key outside the required set. -/
theorem claim_C3_cex :
    _validate_periods .t20TD eMiss pcUnk none (planFix 0) (planFix 0) =
      .error (.missingPeriod "energia_kwh" ["E3"]) ∧
    "P9" ∈ keysOf pcUnk ∧ "P9" ∉ (TARIFF_PERIODS .t20TD).potencia :=
  ⟨rfl, by decide, by decide⟩

/-- C3 (amended): the validator accepts iff every supplied map's key set
is exactly the tariff's required set; otherwise it fails on the first
field, in source check order, whose key set is not exactly the required
set — with `UnknownPeriod` naming that field and its offending keys when
the field has keys outside the required set (unknown takes precedence),
else `MissingPeriod` naming that field and its missing keys. -/
theorem claim_C3_validator (t : Tarifa) (e pc : PMap) (pf : Option PMap)
    (pa pb : PlanInput) :
    (_validate_periods t e pc pf pa pb = .ok () ↔
      ∀ c ∈ checksOf t e pc pf pa pb, exactKeys c.1 c.2.1) ∧
    (∀ L1 c L2, checksOf t e pc pf pa pb = L1 ++ c :: L2 →
      (∀ c2 ∈ L1, exactKeys c2.1 c2.2.1) → ¬ exactKeys c.1 c.2.1 →
      _validate_periods t e pc pf pa pb = _chk c.1 c.2.1 c.2.2) ∧
    (∀ (m : PMap) (must : List String) (nm : String),
      ((keysOf m).filter (fun k => !(must.contains k)) = [] ↔
        ∀ k ∈ keysOf m, k ∈ must) ∧
      (must.filter (fun k => !((keysOf m).contains k)) = [] ↔
        ∀ k ∈ must, k ∈ keysOf m) ∧
      ((keysOf m).filter (fun k => !(must.contains k)) ≠ [] →
        _chk m must nm = .error (.unknownPeriod nm
          ((keysOf m).filter (fun k => !(must.contains k))))) ∧
      ((keysOf m).filter (fun k => !(must.contains k)) = [] →
        must.filter (fun k => !((keysOf m).contains k)) ≠ [] →
        _chk m must nm = .error (.missingPeriod nm
          (must.filter (fun k => !((keysOf m).contains k)))))) := by
  refine ⟨?_, ?_, ?_⟩
  · rw [validate_eq_runChecks]
    exact runChecks_ok_iff _
  · intro L1 c L2 hdec hok hfail
    rw [validate_eq_runChecks, hdec, runChecks_append_ok L1 (c :: L2) hok]
    cases hchk : _chk c.1 c.2.1 c.2.2 with
    | ok u =>
      cases u
      exact absurd ((chk_ok_iff c.1 c.2.1 c.2.2).mp hchk) hfail
    | error er =>
      rw [runChecks_cons_error c L2 er hchk]
  · intro m must nm
    exact ⟨unknowns_nil_iff m must, missing_nil_iff m must,
      chk_unknown m must nm, chk_missing m must nm⟩

/-- C3, witness: on a `2.0TD` energy map with the extra key `E9` (all
earlier-checked fields valid) the validator fails with `UnknownPeriod`
naming `energia_kwh` and `["E9"]`. -/
theorem claim_C3_witness :
    _validate_periods .t20TD eUnk pZ none (planFix 0) (planFix 0) =
      .error (.unknownPeriod "energia_kwh" ["E9"]) := by
  have h := (claim_C3_validator .t20TD eUnk pZ none (planFix 0) (planFix 0)).2.1
    [] (eUnk, ["E1", "E2", "E3"], "energia_kwh")
    [(pZ, ["P1", "P2"], "potencia_contratada_kw"),
     ((planFix 0).precio_energia, ["E1", "E2", "E3"], "actual.precio_energia"),
     ((planFix 0).precio_energia, ["E1", "E2", "E3"], "propuesta.precio_energia"),
     ((planFix 0).precio_potencia, ["P1", "P2"], "actual.precio_potencia"),
     ((planFix 0).precio_potencia, ["P1", "P2"], "propuesta.precio_potencia")]
    rfl (by simp) (by decide)
  rw [h]
  have h2 := ((claim_C3_validator .t20TD eUnk pZ none (planFix 0) (planFix 0)).2.2
    eUnk ["E1", "E2", "E3"] "energia_kwh").2.2.1 (by decide)
  rw [h2]
  rfl

/-- C4: `_compute_bill` is total by construction, and a period absent from
the consumption map, the (resolved) power-base map, or the plan's price
maps contributes zero: explicitly mapping the absent period to 0 leaves
the returned breakdown unchanged. -/
theorem claim_C4_absent_defaults_zero (t : Tarifa) (e pc : PMap) (pl : PlanInput)
    (ie iv : ℚ) (u : String) (a rl ri : Bool) (p : String) :
    (∀ pf, p ∉ keysOf e →
      _compute_bill t ((p, 0) :: e) pc pf pl ie iv u a rl ri =
        _compute_bill t e pc pf pl ie iv u a rl ri) ∧
    (p ∉ keysOf pc →
      _compute_bill t e ((p, 0) :: pc) none pl ie iv u a rl ri =
        _compute_bill t e pc none pl ie iv u a rl ri) ∧
    (∀ m, m ≠ [] → p ∉ keysOf m →
      _compute_bill t e pc (some ((p, 0) :: m)) pl ie iv u a rl ri =
        _compute_bill t e pc (some m) pl ie iv u a rl ri) ∧
    (p ∉ keysOf pl.precio_energia →
      _compute_bill t e pc none
        { pl with precio_energia := (p, 0) :: pl.precio_energia } ie iv u a rl ri =
        _compute_bill t e pc none pl ie iv u a rl ri) ∧
    (p ∉ keysOf pl.precio_potencia →
      _compute_bill t e pc none
        { pl with precio_potencia := (p, 0) :: pl.precio_potencia } ie iv u a rl ri =
        _compute_bill t e pc none pl ie iv u a rl ri) := by
  refine ⟨?_, ?_, ?_, ?_, ?_⟩
  · intro pf h
    exact compute_bill_ene_congr t ((p, 0) :: e) e pc pf pl ie iv u a rl ri
      (getD_cons_zero e p h)
  · intro h
    exact compute_bill_pot_congr t e ((p, 0) :: pc) pc pl ie iv u a rl ri
      (getD_cons_zero pc p h)
  · intro m hm h
    simp only [_compute_bill]
    rw [potBase_some_ne pc ((p, 0) :: m) (List.cons_ne_nil _ _), potBase_some_ne pc m hm,
      potImportes_congr (TARIFF_PERIODS t).potencia ((p, 0) :: m) m pl.precio_potencia
        pl.precio_potencia (factorPot u) rl (getD_cons_zero m p h) (fun k => rfl)]
  · intro h
    exact compute_bill_plan_congr t e pc none _ pl ie iv u a rl ri rfl (fun k => rfl)
      (getD_cons_zero pl.precio_energia p h)
  · intro h
    exact compute_bill_plan_congr t e pc none _ pl ie iv u a rl ri rfl
      (getD_cons_zero pl.precio_potencia p h) (fun k => rfl)

/-- C4, witness: adding the absent required period `E3` explicitly as 0 kWh
to a two-period consumption map leaves the bill unchanged. -/
theorem claim_C4_witness :
    _compute_bill .t20TD (("E3", 0) :: eMiss) pZ none (planFix 0) 0 0
      "eur_kw_anio" true true true =
    _compute_bill .t20TD eMiss pZ none (planFix 0) 0 0 "eur_kw_anio" true true true :=
  (claim_C4_absent_defaults_zero .t20TD eMiss pZ (planFix 0) 0 0 "eur_kw_anio"
    true true true "E3").1 none (by decide)

/-- C5: every successful `/compare` result satisfies
`ahorro_anual = actual.total_anual - propuesta.total_anual` exactly, and
`ahorro_pct` is 0 when the current annual total is non-positive, else
`round2(100 * ahorro_anual / actual.total_anual)`. -/
theorem claim_C5_savings (p : CompareInput) (r : CompareResult)
    (h : compare p = .ok r) :
    r.ahorro_anual = r.actual.total_anual - r.propuesta.total_anual ∧
    (r.actual.total_anual ≤ 0 → r.ahorro_pct = 0) ∧
    (0 < r.actual.total_anual →
      r.ahorro_pct = _round2 (100 * r.ahorro_anual / r.actual.total_anual)) := by
  obtain ⟨-, ha, hb, h4, -, h6⟩ := compare_ok_elim p r h
  refine ⟨?_, ?_, ?_⟩
  · rw [h4, ha, hb]
    exact round2_of_isCent _ ((isCent_billActual_total p).sub (isCent_billPropuesta_total p))
  · intro hle
    rw [ha] at hle
    rw [h6, if_neg (not_lt.mpr hle)]
    exact round2_zero
  · intro hpos
    rw [ha] at hpos
    rw [h6, if_pos hpos, ha]
    congr 1
    ring

/-- C5, witness: the invariants instantiated on the concrete successful
call `compare cmpC5 = .ok resC5`. -/
theorem claim_C5_witness :
    resC5.ahorro_anual = resC5.actual.total_anual - resC5.propuesta.total_anual ∧
    (resC5.actual.total_anual ≤ 0 → resC5.ahorro_pct = 0) ∧
    (0 < resC5.actual.total_anual →
      resC5.ahorro_pct = _round2 (100 * resC5.ahorro_anual / resC5.actual.total_anual)) :=
  claim_C5_savings cmpC5 resC5 compare_cmpC5

/-- C6: `/compare` fails with exactly the validator's error (before either
bill is computed) or returns both bills as computed by `_compute_bill`;
there is no partial outcome. -/
theorem claim_C6_all_or_nothing (p : CompareInput) :
    (∀ e, compare p = .error e ↔ validateOf p = .error e) ∧
    (∀ r, compare p = .ok r → r.actual = billActual p ∧ r.propuesta = billPropuesta p) :=
  ⟨fun e => compare_error_iff p e,
   fun r h => ⟨(compare_ok_elim p r h).2.1, (compare_ok_elim p r h).2.2.1⟩⟩

/-- C6, witness: on a payload whose energy map misses `E3`, `/compare`
propagates the validator's `MissingPeriod` error. -/
theorem claim_C6_witness :
    compare cmpBad = .error (.missingPeriod "energia_kwh" ["E3"]) :=
  ((claim_C6_all_or_nothing cmpBad).1 (.missingPeriod "energia_kwh" ["E3"])).mpr rfl

/-- C7: swapping the current and proposed plans negates the annual saving
on any pair of successful `/compare` calls. -/
theorem claim_C7_antisymmetry (p : CompareInput) (r1 r2 : CompareResult)
    (h1 : compare p = .ok r1) (h2 : compare (swapPlans p) = .ok r2) :
    r1.ahorro_anual = -r2.ahorro_anual := by
  obtain ⟨-, -, -, ha1, -, -⟩ := compare_ok_elim p r1 h1
  obtain ⟨-, -, -, ha2, -, -⟩ := compare_ok_elim (swapPlans p) r2 h2
  rw [billActual_swap, billPropuesta_swap] at ha2
  rw [ha1, ha2,
    round2_of_isCent _ ((isCent_billActual_total p).sub (isCent_billPropuesta_total p)),
    round2_of_isCent _ ((isCent_billPropuesta_total p).sub (isCent_billActual_total p))]
  ring

/-- C7, witness: on the concrete payload `cmpC5` and its swap, the annual
savings are 60 and -60. -/
theorem claim_C7_witness : resC5.ahorro_anual = -resC7.ahorro_anual :=
  claim_C7_antisymmetry cmpC5 resC5 resC7 compare_cmpC5 compare_swap_cmpC5

/-- C9, counterexample: a present-but-empty billed-power map is falsy in
Python, so `pot_base = pot_fact or pot_contr` falls back to the contracted
map: with billed power `some []` supplied, changing the contracted power
changes the result. -/
theorem claim_C9_cex :
    (some ([] : PMap)).isSome = true ∧ billC9a.potencia_anual ≠ billC9b.potencia_anual := by
  refine ⟨rfl, ?_⟩
  rw [billC9a_pot, billC9b_pot]
  norm_num

/-- C9 (amended): whenever a non-empty billed-power map is supplied the
power lines are computed from it and the contracted-power values have no
effect; an empty billed-power map, like an absent one, falls back to the
contracted-power map. -/
theorem claim_C9_billed_power_base (t : Tarifa) (e pc pc2 : PMap) (pl : PlanInput)
    (ie iv : ℚ) (u : String) (a rl ri : Bool) :
    (∀ m, m ≠ [] →
      _compute_bill t e pc (some m) pl ie iv u a rl ri =
        _compute_bill t e pc2 (some m) pl ie iv u a rl ri) ∧
    (_compute_bill t e pc (some []) pl ie iv u a rl ri =
      _compute_bill t e pc none pl ie iv u a rl ri) := by
  constructor
  · intro m hm
    exact compute_bill_billed_irrel t e pc pc2 m pl ie iv u a rl ri hm
  · simp only [_compute_bill]
    rw [potBase_some_nil, potBase_none]

/-- C9, witness: with the non-empty billed-power map `[("P1",1),("P2",1)]`
supplied, bills with contracted power 5 kW and 0 kW coincide. -/
theorem claim_C9_witness :
    _compute_bill .t20TD eZ pc5 (some [("P1", 1), ("P2", 1)]) planOnes 0 0
      "eur_kw_anio" true true true =
    _compute_bill .t20TD eZ pZ (some [("P1", 1), ("P2", 1)]) planOnes 0 0
      "eur_kw_anio" true true true :=
  (claim_C9_billed_power_base .t20TD eZ pc5 pZ planOnes 0 0 "eur_kw_anio"
    true true true).1 [("P1", 1), ("P2", 1)] (List.cons_ne_nil _ _)

/-- C10: on every successful `/compare` call the monthly saving is
`round2(ahorro_anual / 12)`; it is not the difference of the two stored
`total_mensual` fields, and on `cmpC10` the two quantities differ
(0.00 vs 0.01). -/
theorem claim_C10_monthly_saving :
    (∀ (p : CompareInput) (r : CompareResult), compare p = .ok r →
      r.ahorro_mensual = _round2 (r.ahorro_anual / 12)) ∧
    (compare cmpC10 = .ok resC10 ∧
      resC10.ahorro_mensual ≠ resC10.actual.total_mensual - resC10.propuesta.total_mensual) := by
  constructor
  · intro p r h
    exact (compare_ok_elim p r h).2.2.2.2.1
  · refine ⟨compare_cmpC10, ?_⟩
    have q2 : _round2 ((667 : ℚ) / 80) = 417 / 50 := by
      rw [round2_eq _ 834 (by norm_num) (by norm_num)]; norm_num
    have q4 : _round2 ((25 : ℚ) / 3) = 833 / 100 := by
      rw [round2_eq _ 833 (by norm_num) (by norm_num)]; norm_num
    norm_num [resC10, billFix, q2, q4]

/-- C10, witness: the monthly-saving equation instantiated on the concrete
successful call `compare cmpC10 = .ok resC10`. -/
theorem claim_C10_witness :
    resC10.ahorro_mensual = _round2 (resC10.ahorro_anual / 12) :=
  claim_C10_monthly_saving.1 cmpC10 resC10 claim_C10_monthly_saving.2.1

/-- C8 (spec-modelled): `allocate_monthly` validates its monthly energy
input before any arithmetic: a required energy period absent from the
input yields `MissingPeriod` (naming the field and the missing periods),
and — when every required period is present — a required period whose
series length is not 12 yields `InvalidMonthlySeries` naming such a
period. -/
theorem claim_C8_monthly_validation (t : Tarifa) (monthly : MMap) (pc : PMap)
    (pa pb : PlanInput) (ie iv : ℚ) :
    ((∃ e ∈ (TARIFF_PERIODS t).energia, List.lookup e monthly = none) →
      allocate_monthly t monthly pc pa pb ie iv = .error (.missingPeriod "energia_mensual"
        ((TARIFF_PERIODS t).energia.filter (fun e => (List.lookup e monthly).isNone))) ∧
      (TARIFF_PERIODS t).energia.filter (fun e => (List.lookup e monthly).isNone) ≠ []) ∧
    ((∀ e ∈ (TARIFF_PERIODS t).energia, (List.lookup e monthly).isSome) →
      (∃ e ∈ (TARIFF_PERIODS t).energia, ((List.lookup e monthly).getD []).length ≠ 12) →
      ∃ e, allocate_monthly t monthly pc pa pb ie iv = .error (.invalidMonthlySeries e) ∧
        e ∈ (TARIFF_PERIODS t).energia ∧
        ((List.lookup e monthly).getD []).length ≠ 12) := by
  constructor
  · intro h
    refine ⟨alloc_of_validate_error _ _ _ _ _ _ _ _
      (validate_monthly_missing t monthly pa pb h), ?_⟩
    obtain ⟨e, he, hn⟩ := h
    exact List.ne_nil_of_mem (List.mem_filter.mpr ⟨he, by simp [hn]⟩)
  · intro hpres hbad
    obtain ⟨e, hv, hmem, hlen⟩ := validate_monthly_badlen t monthly pa pb hpres hbad
    exact ⟨e, alloc_of_validate_error _ _ _ _ _ _ _ _ hv, hmem, hlen⟩

/-- C8, witness: a monthly energy input whose `E3` series has 11 entries
makes `allocate_monthly` fail with `InvalidMonthlySeries`. -/
theorem claim_C8_witness :
    ∃ e, allocate_monthly .t20TD monthly11 pZ (planFix 0) (planFix 0) 0 0 =
      .error (.invalidMonthlySeries e) ∧ e ∈ (TARIFF_PERIODS .t20TD).energia ∧
      ((List.lookup e monthly11).getD []).length ≠ 12 :=
  (claim_C8_monthly_validation .t20TD monthly11 pZ (planFix 0) (planFix 0) 0 0).2
    (by decide) (by decide)

end OpenEnergies
